import Mathlib

/-!
Shallow embedding of the SocioPatterns/pysopa event data model
(`src/sociopatterns/__init__.py`): the `Event` base class, the `Sighting`
and `Contact` event kinds, their constructors, their deduplication hash
functions and their textual representations.

All integer fields are modelled as `Nat` (the protocol types them as
unsigned 16/32-bit integers and the Python constructors store whatever
integers they are given).  Python's built-in `hash` on tuples of
non-negative ints is modelled concretely by CPython's algorithm:
`hash` of a non-negative int is reduction modulo `2^61 - 1`, and the
tuple hash is the xxHash-based combination working in 64-bit unsigned
arithmetic.  CPython finally reinterprets the 64-bit unsigned
accumulator as a signed machine word; that map is a bijection, so
modelling the hash as the unsigned value preserves all equalities and
inequalities of hash values.
-/

/-- CPython reduces the hash of a non-negative int modulo `2^61 - 1`. -/
def pyHashModulus : Nat := 2 ^ 61 - 1

/-- `hash(n)` for a non-negative Python int `n`. -/
def pyIntHash (n : Nat) : Nat := n % pyHashModulus

def xxPrime1 : Nat := 11400714785074694791

def xxPrime2 : Nat := 14029467366897019727

def xxPrime5 : Nat := 2870177450012600261

/-- 64-bit rotate left by 31 used by CPython's tuple hash. -/
def xxRotate (x : Nat) : Nat := ((x <<< 31) ||| (x >>> 33)) % 2 ^ 64

/-- One accumulation step of CPython's tuple hash (64-bit arithmetic). -/
def tupleHashStep (acc lane : Nat) : Nat :=
  (xxRotate ((acc + lane * xxPrime2) % 2 ^ 64) * xxPrime1) % 2 ^ 64

/-- `hash(t)` for a Python tuple `t` of non-negative ints: fold each
element's int hash into the xxHash accumulator, mix in the length, and
remap the reserved error value. -/
def pyTupleHash (xs : List Nat) : Nat :=
  let acc := xs.foldl (fun a x => tupleHashStep a (pyIntHash x)) xxPrime5
  let acc2 := (acc + Nat.xor xs.length (Nat.xor xxPrime5 3527539)) % 2 ^ 64
  if acc2 = 2 ^ 64 - 1 then 1546275796 else acc2

/-- Base class `Event`: common identity fields of any received packet.
`t` is the collection-point timestamp, `ip` the reporter address,
`id` the tag id, `seq` the per-tag sequence counter. -/
structure Event where
  t : Nat
  ip : Nat
  id : Nat
  seq : Nat

/-- `Event.__init__`: stores the four identity fields. -/
def Event.init (tstamp ip id seq : Nat) : Event := ⟨tstamp, ip, id, seq⟩

/-- `Event.get_hash`: `hash((self.id, self.seq))`. -/
def Event.get_hash (e : Event) : Nat := pyTupleHash [e.id, e.seq]

/-- `Sighting`: a message emitted by one tag, carrying information about
the transmitting tag only. -/
structure Sighting extends Event where
  strength : Nat
  flags : Nat
  last_seen : Nat
  boot_count : Nat

/-- Class attribute `Sighting.protocol = 24`. -/
def Sighting.protocol : Nat := 24

/-- `Sighting.__init__`: delegates the identity fields to
`Event.__init__` and stores the four extra fields unchanged. -/
def Sighting.init (tstamp ip id seq strength flags last_seen boot_count : Nat) :
    Sighting :=
  ⟨Event.init tstamp ip id seq, strength, flags, last_seen, boot_count⟩

/-- `Sighting.get_hash`: `hash((self.id, self.boot_count, self.seq))`. -/
def Sighting.get_hash (s : Sighting) : Nat :=
  pyTupleHash [s.id, s.boot_count, s.seq]

/-- `Contact`: a message emitted by one tag, also carrying a table of
recently seen neighbouring tags (`seen_id`/`seen_pwr`/`seen_cnt`). -/
structure Contact extends Event where
  seen_id : List Nat
  seen_pwr : List Nat
  seen_cnt : List Nat
  flags : Nat
  boot_count : Nat

/-- Class attribute `Contact.protocol = 69`. -/
def Contact.protocol : Nat := 69

/-- `Contact.__init__`: delegates the identity fields to
`Event.__init__` and stores the neighbour lists, flags and boot count
exactly as given. -/
def Contact.init (tstamp ip id seq : Nat) (seen_id seen_pwr seen_cnt : List Nat)
    (flags boot_count : Nat) : Contact :=
  ⟨Event.init tstamp ip id seq, seen_id, seen_pwr, seen_cnt, flags, boot_count⟩

/-- `Contact` defines no `get_hash` of its own and inherits
`Event.get_hash`, so its key is `hash((self.id, self.seq))`. -/
def Contact.get_hash (c : Contact) : Nat := Event.get_hash c.toEvent

/-- Lowercase decimal digits of `n`, via the core hex/decimal digit
printer (`Nat.toDigits 10 n` is exactly the decimal numeral). -/
def decStr (n : Nat) : String := String.mk (Nat.toDigits 10 n)

/-- Python's `"%0wx" % n`: lowercase hexadecimal digits of `n`,
left-padded with zeros to a minimum width `w` (never truncated). -/
def hexPad (w n : Nat) : String :=
  let ds := Nat.toDigits 16 n
  String.mk (List.replicate (w - ds.length) '0' ++ ds)

/-- `Sighting.__repr__`:
`'S %ld 0x%08x %d 0x%08x %d %d %s %s' % (t, ip, id, seq, strength, flags, last_seen, boot_count)`. -/
def Sighting.reprStr (s : Sighting) : String :=
  "S " ++ decStr s.t ++ " 0x" ++ hexPad 8 s.ip ++ " " ++ decStr s.id ++
    " 0x" ++ hexPad 8 s.seq ++ " " ++ decStr s.strength ++ " " ++
    decStr s.flags ++ " " ++ decStr s.last_seen ++ " " ++ decStr s.boot_count

/-- Python's three-argument `zip`: combine elementwise, stopping at the
shortest list. -/
def zip3 : List Nat → List Nat → List Nat → List (Nat × Nat × Nat)
  | a :: as, b :: bs, c :: cs => (a, b, c) :: zip3 as bs cs
  | _, _, _ => []

/-- One neighbour segment of `Contact.__repr__`:
`" [%d(%d) #%d]" % (id2, pwr, count)`. -/
def neighborSeg : Nat × Nat × Nat → String
  | (id2, pwr, count) =>
    " [" ++ decStr id2 ++ "(" ++ decStr pwr ++ ") #" ++ decStr count ++ "]"

/-- `Contact.__repr__`: accumulate one segment per element of
`zip(seen_id, seen_pwr, seen_cnt)` into `clist`, then format
`'C %ld 0x%08x %d 0x%04x 0x%08x %d%s'`. -/
def Contact.reprStr (c : Contact) : String :=
  let clist := (zip3 c.seen_id c.seen_pwr c.seen_cnt).foldl
    (fun acc tr => acc ++ neighborSeg tr) ""
  "C " ++ decStr c.t ++ " 0x" ++ hexPad 8 c.ip ++ " " ++ decStr c.id ++
    " 0x" ++ hexPad 4 c.boot_count ++ " 0x" ++ hexPad 8 c.seq ++ " " ++
    decStr c.flags ++ clist

/-- The fixed header part of the Contact representation, as the spec
describes it: `"C <t> 0x<ip:8hex> <id> 0x<bootCount:4hex> 0x<seq:8hex> <flags>"`. -/
def contactHeader (c : Contact) : String :=
  "C " ++ decStr c.t ++ " 0x" ++ hexPad 8 c.ip ++ " " ++ decStr c.id ++
    " 0x" ++ hexPad 4 c.boot_count ++ " 0x" ++ hexPad 8 c.seq ++ " " ++
    decStr c.flags

/-- The list of neighbour segments of a Contact representation, one per
entry of the zipped neighbour table, in table order. -/
def contactSegs (c : Contact) : List String :=
  (zip3 c.seen_id c.seen_pwr c.seen_cnt).map neighborSeg

/-! ### Helper lemmas -/

theorem str_empty_append (s : String) : "" ++ s = s := by
  cases s with
  | mk d => rfl

theorem str_append_empty (s : String) : s ++ "" = s := by
  cases s with
  | mk d =>
    show String.mk (d ++ []) = String.mk d
    rw [List.append_nil]

theorem str_append_assoc (a b c : String) : a ++ b ++ c = a ++ (b ++ c) := by
  cases a with
  | mk x =>
    cases b with
    | mk y =>
      cases c with
      | mk z =>
        show String.mk (x ++ y ++ z) = String.mk (x ++ (y ++ z))
        rw [List.append_assoc]

theorem joinStr_foldl : ∀ (l : List String) (s : String),
    List.foldl (fun a b => a ++ b) s l = s ++ String.join l := by
  intro l
  induction l with
  | nil => intro s; simp [String.join, str_append_empty]
  | cons x xs ih =>
    intro s
    have h1 : String.join (x :: xs) = x ++ String.join xs := by
      show List.foldl (fun a b => a ++ b) ("" ++ x) xs = _
      rw [str_empty_append, ih]
    rw [List.foldl_cons, ih, h1, str_append_assoc]

theorem foldl_seg_join (f : Nat × Nat × Nat → String) :
    ∀ (l : List (Nat × Nat × Nat)) (s : String),
      List.foldl (fun acc tr => acc ++ f tr) s l = s ++ String.join (l.map f) := by
  intro l
  induction l with
  | nil => intro s; simp [String.join, str_append_empty]
  | cons x xs ih =>
    intro s
    have h1 : String.join (f x :: xs.map f) = f x ++ String.join (xs.map f) := by
      show List.foldl (fun a b => a ++ b) ("" ++ f x) (xs.map f) = _
      rw [str_empty_append, joinStr_foldl]
    rw [List.map_cons, List.foldl_cons, ih, h1, str_append_assoc]

theorem contactRepr_decomp (c : Contact) :
    c.reprStr = contactHeader c ++ String.join (contactSegs c) := by
  show contactHeader c ++
      List.foldl (fun acc tr => acc ++ neighborSeg tr) ""
        (zip3 c.seen_id c.seen_pwr c.seen_cnt) =
    contactHeader c ++ String.join (contactSegs c)
  rw [foldl_seg_join, str_empty_append]
  rfl

theorem zip3_length : ∀ (a b c : List Nat),
    (zip3 a b c).length = min (min a.length b.length) c.length := by
  intro a
  induction a with
  | nil => intro b c; cases b <;> cases c <;> simp [zip3]
  | cons x as ih =>
    intro b c
    cases b with
    | nil => cases c <;> simp [zip3]
    | cons y bs =>
      cases c with
      | nil => simp [zip3]
      | cons z cs =>
        simp only [zip3, List.length_cons, ih]
        omega

theorem contactSegs_length (c : Contact) :
    (contactSegs c).length =
      min (min c.seen_id.length c.seen_pwr.length) c.seen_cnt.length := by
  simp [contactSegs, zip3_length]

/-! ### Claim theorems -/

/-- C1: any two Contact events with equal `tagId` and equal `sequence`
have equal deduplication keys, whatever their timestamps, reporter
addresses, boot counts or neighbour tables: the Contact key (inherited
`Event.get_hash`) is derived from `(tagId, sequence)` alone. -/
theorem contact_key_from_id_seq_only (c1 c2 : Contact)
    (hid : c1.id = c2.id) (hseq : c1.seq = c2.seq) :
    c1.get_hash = c2.get_hash := by
  simp [Contact.get_hash, Event.get_hash, hid, hseq]

theorem contact_key_from_id_seq_only_witness :
    (Contact.init 1 2 3 4 [] [] [] 0 100).get_hash =
      (Contact.init 9 8 3 4 [10] [1] [1] 7 200).get_hash :=
  contact_key_from_id_seq_only _ _ rfl rfl

/-- C2: any two Sighting events with equal `tagId`, equal `bootCount`
and equal `sequence` have equal deduplication keys, even when their
reporter addresses and timestamps differ: `Sighting.get_hash` is derived
from the triple `(tagId, bootCount, sequence)`. -/
theorem sighting_key_from_id_boot_seq (s1 s2 : Sighting)
    (hid : s1.id = s2.id) (hboot : s1.boot_count = s2.boot_count)
    (hseq : s1.seq = s2.seq) :
    s1.get_hash = s2.get_hash := by
  simp [Sighting.get_hash, hid, hboot, hseq]

theorem sighting_key_from_id_boot_seq_witness :
    (Sighting.init 1700000000 0x0afe0001 3 4 2 0 0 5).get_hash =
      (Sighting.init 1700000009 0x0afe0002 3 4 1 1 9 5).get_hash :=
  sighting_key_from_id_boot_seq _ _ rfl rfl rfl

/-- C3 counterexample: the Contact constructor accepts a neighbour
table of five entries without any error, so the constructed Contact
violates the claimed `len(neighbors) <= 4` invariant. -/
theorem contact_ctor_accepts_five_neighbors :
    ¬ ((Contact.init 0 0 1 2 [1, 2, 3, 4, 5] [0, 1, 2, 3, 0] [1, 2, 3, 4, 5]
        0 0).seen_id.length ≤ 4) := by
  decide

/-- C3 amended: `Contact.__init__` performs no validation at all: it
stores the three neighbour lists exactly as given, so a source encoding
more than 4 neighbour entries is accepted in full — neither rejected
with an error nor truncated. -/
theorem contact_ctor_stores_neighbors_unchanged
    (tstamp ip id seq : Nat) (seen_id seen_pwr seen_cnt : List Nat)
    (flags boot_count : Nat) :
    (Contact.init tstamp ip id seq seen_id seen_pwr seen_cnt flags
        boot_count).seen_id = seen_id ∧
    (Contact.init tstamp ip id seq seen_id seen_pwr seen_cnt flags
        boot_count).seen_pwr = seen_pwr ∧
    (Contact.init tstamp ip id seq seen_id seen_pwr seen_cnt flags
        boot_count).seen_cnt = seen_cnt :=
  ⟨rfl, rfl, rfl⟩

/-- C4 counterexample: the Sighting constructor accepts `strength = 7`
without any error, producing a Sighting whose strength lies outside
`[0,3]`; no range check or `MalformedPacket` rejection exists. -/
theorem sighting_ctor_accepts_strength_seven :
    ¬ ((Sighting.init 0 0 1 2 7 0 0 0).strength ≤ 3) := by
  decide

/-- C4 amended: `Sighting.__init__` stores the given `strength` value
unmodified, with no range check: out-of-range values are accepted as
they are — neither rejected nor clamped. -/
theorem sighting_ctor_stores_strength_unchanged
    (tstamp ip id seq strength flags last_seen boot_count : Nat) :
    (Sighting.init tstamp ip id seq strength flags last_seen
        boot_count).strength = strength :=
  rfl

/-- C5: the Sighting built from `tagId = 0x1234`, `sequence = 7`,
`strength = 2`, `flags = 1`, `lastSeenId = 1`, `bootCount = 3`,
`timestamp = 1700000000`, `reporterAddress = 0x0afe0001` has exactly the
debug string `"S 1700000000 0x0afe0001 4660 0x00000007 2 1 1 3"`. -/
theorem sighting_repr_example :
    (Sighting.init 1700000000 0x0afe0001 0x1234 0x00000007 2 1 1 3).reprStr =
      "S 1700000000 0x0afe0001 4660 0x00000007 2 1 1 3" := by
  decide

/-- C6: for every Contact whose neighbour lists have the documented
equal lengths, the debug string is exactly the header
`"C <t> 0x<ip:8hex> <id> 0x<bootCount:4hex> 0x<seq:8hex> <flags>"`
followed by the concatenation of one `" [<id>(<pwr>) #<cnt>]"` segment
per neighbour entry, in table order. -/
theorem contact_repr_format (c : Contact)
    (hp : c.seen_pwr.length = c.seen_id.length)
    (hc : c.seen_cnt.length = c.seen_id.length) :
    c.reprStr = contactHeader c ++ String.join (contactSegs c) ∧
    (contactSegs c).length = c.seen_id.length := by
  refine ⟨contactRepr_decomp c, ?_⟩
  rw [contactSegs_length, hp, hc, Nat.min_self, Nat.min_self]

theorem contact_repr_format_witness :
    (Contact.init 5 6 7 8 [10, 20] [1, 2] [3, 4] 9 11).reprStr =
      contactHeader (Contact.init 5 6 7 8 [10, 20] [1, 2] [3, 4] 9 11) ++
        String.join (contactSegs (Contact.init 5 6 7 8 [10, 20] [1, 2] [3, 4] 9 11)) ∧
    (contactSegs (Contact.init 5 6 7 8 [10, 20] [1, 2] [3, 4] 9 11)).length =
      (Contact.init 5 6 7 8 [10, 20] [1, 2] [3, 4] 9 11).seen_id.length :=
  contact_repr_format _ rfl rfl

/-- C7: the deduplication key is a pure function of the listed identity
fields alone — for each event kind, any two events agreeing on those
fields (and on nothing else) have equal keys, with no dependence on
addresses, ordering or per-process state. -/
theorem get_hash_pure_function_of_identity_fields :
    (∀ s1 s2 : Sighting,
      (s1.id, s1.boot_count, s1.seq) = (s2.id, s2.boot_count, s2.seq) →
        s1.get_hash = s2.get_hash) ∧
    (∀ c1 c2 : Contact, (c1.id, c1.seq) = (c2.id, c2.seq) →
        c1.get_hash = c2.get_hash) ∧
    (∀ e1 e2 : Event, (e1.id, e1.seq) = (e2.id, e2.seq) →
        e1.get_hash = e2.get_hash) := by
  refine ⟨?_, ?_, ?_⟩
  · intro s1 s2 h
    simp only [Prod.mk.injEq] at h
    simp [Sighting.get_hash, h.1, h.2.1, h.2.2]
  · intro c1 c2 h
    simp only [Prod.mk.injEq] at h
    simp [Contact.get_hash, Event.get_hash, h.1, h.2]
  · intro e1 e2 h
    simp only [Prod.mk.injEq] at h
    simp [Event.get_hash, h.1, h.2]

theorem get_hash_pure_function_of_identity_fields_witness :
    (Sighting.init 1 2 3 4 0 0 0 5).get_hash =
      (Sighting.init 9 8 3 4 1 1 1 5).get_hash ∧
    (Contact.init 1 2 3 4 [] [] [] 0 0).get_hash =
      (Contact.init 5 6 3 4 [1] [2] [3] 9 9).get_hash ∧
    (Event.init 1 2 3 4).get_hash = (Event.init 7 7 3 4).get_hash :=
  ⟨get_hash_pure_function_of_identity_fields.1 _ _ rfl,
   get_hash_pure_function_of_identity_fields.2.1 _ _ rfl,
   get_hash_pure_function_of_identity_fields.2.2 _ _ rfl⟩

/-- C8: Sighting and Contact records are value records fully determined
by their listed fields: two records agreeing on every listed field are
equal, so a record carries no hidden state and in particular no
reference back to the transport connection; every operation of the
embedding is a pure function, mirroring that no source method assigns
to a field outside the constructor. -/
theorem event_records_value_semantics :
    (∀ s1 s2 : Sighting, s1.t = s2.t → s1.ip = s2.ip → s1.id = s2.id →
      s1.seq = s2.seq → s1.strength = s2.strength → s1.flags = s2.flags →
      s1.last_seen = s2.last_seen → s1.boot_count = s2.boot_count →
      s1 = s2) ∧
    (∀ c1 c2 : Contact, c1.t = c2.t → c1.ip = c2.ip → c1.id = c2.id →
      c1.seq = c2.seq → c1.seen_id = c2.seen_id →
      c1.seen_pwr = c2.seen_pwr → c1.seen_cnt = c2.seen_cnt →
      c1.flags = c2.flags → c1.boot_count = c2.boot_count → c1 = c2) := by
  constructor
  · rintro ⟨⟨t1, ip1, id1, sq1⟩, st1, fl1, ls1, bc1⟩
      ⟨⟨t2, ip2, id2, sq2⟩, st2, fl2, ls2, bc2⟩ h1 h2 h3 h4 h5 h6 h7 h8
    simp_all
  · rintro ⟨⟨t1, ip1, id1, sq1⟩, si1, sp1, sc1, fl1, bc1⟩
      ⟨⟨t2, ip2, id2, sq2⟩, si2, sp2, sc2, fl2, bc2⟩ h1 h2 h3 h4 h5 h6 h7 h8 h9
    simp_all

theorem event_records_value_semantics_witness :
    Sighting.init 1 2 3 4 5 6 7 8 = Sighting.init 1 2 3 4 5 6 7 8 ∧
    Contact.init 1 2 3 4 [5] [6] [7] 8 9 = Contact.init 1 2 3 4 [5] [6] [7] 8 9 :=
  ⟨event_records_value_semantics.1 _ _ rfl rfl rfl rfl rfl rfl rfl rfl,
   event_records_value_semantics.2 _ _ rfl rfl rfl rfl rfl rfl rfl rfl rfl⟩

/-- C9: the protocol discriminator of Sighting is 24, that of Contact
is 69, and the two discriminators are distinct, so the two event kinds
are told apart by this value. -/
theorem protocol_discriminators :
    Sighting.protocol = 24 ∧ Contact.protocol = 69 ∧
      Sighting.protocol ≠ Contact.protocol := by
  refine ⟨rfl, rfl, ?_⟩
  decide

/-- C10: for a Contact whose three neighbour lists have unequal
lengths, the debug string is still produced (totally, with no error)
and contains exactly `min(len(seen_id), len(seen_pwr), len(seen_cnt))`
neighbour segments: the zip silently drops the excess elements of the
longer lists. -/
theorem contact_repr_unequal_lists (c : Contact)
    (h : ¬ (c.seen_pwr.length = c.seen_id.length ∧
            c.seen_cnt.length = c.seen_id.length)) :
    c.reprStr = contactHeader c ++ String.join (contactSegs c) ∧
    (contactSegs c).length =
      min (min c.seen_id.length c.seen_pwr.length) c.seen_cnt.length :=
  ⟨contactRepr_decomp c, contactSegs_length c⟩

theorem contact_repr_unequal_lists_witness :
    (Contact.init 1 2 3 4 [10, 20, 30] [1] [3, 4] 5 6).reprStr =
      contactHeader (Contact.init 1 2 3 4 [10, 20, 30] [1] [3, 4] 5 6) ++
        String.join (contactSegs (Contact.init 1 2 3 4 [10, 20, 30] [1] [3, 4] 5 6)) ∧
    (contactSegs (Contact.init 1 2 3 4 [10, 20, 30] [1] [3, 4] 5 6)).length =
      min (min (Contact.init 1 2 3 4 [10, 20, 30] [1] [3, 4] 5 6).seen_id.length
            (Contact.init 1 2 3 4 [10, 20, 30] [1] [3, 4] 5 6).seen_pwr.length)
        (Contact.init 1 2 3 4 [10, 20, 30] [1] [3, 4] 5 6).seen_cnt.length :=
  contact_repr_unequal_lists _ (by decide)
